import Mathlib

/-!
Verification of the CloudRun IDE execution pipeline (backend/app).

This file is a shallow embedding of the pieces of the Python source that
the verified claims are about:

  * `app/utils/constants.py`  — language tables and patterns;
  * `app/utils/helpers.py`    — `validate_code`, container names;
  * `app/services/dependency_detector.py` — regex-based missing-package
    detection, with the concrete regexes of the reference set translated
    into executable matching functions;
  * `app/core/docker_manager.py` — container configuration and the
    stop/remove/cleanup wrappers, with the underlying Docker SDK calls
    modelled as `Except`-valued behaviours carried by the container value;
  * `app/core/executor.py`    — `execute_code_stream` translated to a pure
    function from a `Submission` and an `Env` (the outcomes of the
    effectful steps: container creation, start, log lines, deadline,
    exit code) to the list of emitted events, plus the install-then-run
    shell script and its evaluation, and `stop_execution`;
  * `app/api/websocket.py`    — the field extraction performed by the
    `/ws/execute` endpoint before it invokes the executor.

Wall-clock timestamps carried by every event in the Python code are
omitted: they are `datetime.utcnow()` values with no logical content.
-/

/-! ### String utilities (Python `in`, `str.join`) -/

/-- Auxiliary scan for `pyIn`: does `needle` occur as a contiguous
subsequence of the character list? Mirrors Python's substring test. -/
def containsSeq (needle : List Char) : List Char → Bool
  | [] => needle.isPrefixOf []
  | c :: cs => needle.isPrefixOf (c :: cs) || containsSeq needle cs

/-- Python's `needle in hay` substring test. -/
def pyIn (needle hay : String) : Bool :=
  containsSeq needle.toList hay.toList

/-- Python's `sep.join(parts)`. -/
def pyJoin (sep : String) : List String → String
  | [] => ""
  | [x] => x
  | x :: y :: xs => x ++ sep ++ pyJoin sep (y :: xs)

/-! ### `app/utils/constants.py` -/

/-- `DOCKER_IMAGES` from `constants.py`. -/
def DOCKER_IMAGES : List (String × String) :=
  [("python", "python:3.11-slim"),
   ("nodejs", "node:20-alpine"),
   ("java", "eclipse-temurin:21-jdk"),
   ("cpp", "gcc:12"),
   ("ubuntu", "ubuntu:22.04")]

/-- `NO_DOCKER_LANGUAGES` from `constants.py`. -/
def NO_DOCKER_LANGUAGES : List String := ["html"]

/-- `INSTALL_COMMANDS_MAP` from `executor.py` (template strings; the literal
braces of the Python format placeholders are kept). -/
def INSTALL_COMMANDS_MAP : List (String × String) :=
  [("python", "pip install --no-cache-dir \x7bpackages\x7d"),
   ("nodejs", "cd /workspace && npm install \x7bpackages\x7d")]

/-- `INSTALL_COMMANDS` from `constants.py`: per language, per package
manager, an install template with a `\x7bpackage\x7d` placeholder. -/
def INSTALL_COMMANDS : List (String × List (String × String)) :=
  [("python", [("pip", "pip install --no-cache-dir \x7bpackage\x7d")]),
   ("nodejs", [("npm", "npm install \x7bpackage\x7d")])]

/-- `settings.MAX_EXECUTION_TIME` from `config.py` (default 60 seconds). -/
def MAX_EXECUTION_TIME : Nat := 60

/-! ### `app/utils/helpers.py` -/

/-- `generate_container_name` from `helpers.py`. -/
def generate_container_name (execution_id language : String) : String :=
  "cloudrun_" ++ language ++ "_" ++ execution_id

/-- `validate_code` from `helpers.py`.  Python's
`if not code or not code.strip()` is the test that every character of the
code is whitespace (an empty string passes it vacuously); the size bound is
`len(code) > 1_000_000` on codepoints; the Java branch requires the literal
substring `public class`. -/
def validate_code (code language : String) : Bool × Option String :=
  if code.toList.all (fun c => c.isWhitespace) then
    (false, some "Code cannot be empty")
  else if code.length > 1000000 then
    (false, some "Code is too large (max 1MB)")
  else if language = "java" then
    if pyIn "public class" code then (true, none)
    else (false, some "Java code must contain a public class")
  else (true, none)

/-! ### `app/services/dependency_detector.py`

The regexes of `DEPENDENCY_PATTERNS` all have one of three shapes, which
are translated into executable searches over the output text:

  * `LIT(\w+)'`-style —  a literal (ending in an opening quote) followed by
    a captured non-empty run of word characters and a closing quote
    (`ModuleNotFoundError: No module named '(\w+)'`,
    `Cannot find module '([\w\-@/]+)'`,
    `Error: Cannot find module '([\w\-@/]+)'`);
  * `LIT(\w+)`-style — a literal followed by a captured non-empty run of
    word characters (`ImportError: No module named (\w+)`);
  * `LIT.*'(…)'`-style — a literal, then `.*` (same line, greedy) up to the
    last quoted captured run (`Error \[ERR_MODULE_NOT_FOUND\].*'([\w\-@/]+)'`).

`re.search` semantics: the match is found at the leftmost position where
the whole pattern matches; a greedy `.*` (no DOTALL) stops at the end of
the line and selects the rightmost quoted run on it.  The `re.MULTILINE`
flag only changes `^`/`$`, which none of the patterns use. -/

/-- Python `\w` (ASCII range, which is what the runtime messages use). -/
def isPyWordChar (c : Char) : Bool :=
  c.isAlphanum || c = '_'

/-- The character class `[\w\-@/]` of the nodejs patterns. -/
def isNpmNameChar (c : Char) : Bool :=
  isPyWordChar c || c = '-' || c = '@' || c = '/'

/-- Maximal run of characters satisfying `cls`, with the rest. -/
def takeRun (cls : Char → Bool) : List Char → List Char × List Char
  | [] => ([], [])
  | c :: cs =>
    if cls c then
      let (r, rest) := takeRun cls cs
      (c :: r, rest)
    else ([], c :: cs)

/-- Match `lit` then a non-empty `cls` run then the closing character,
anchored at the head of `l`; return the captured run. -/
def matchLitRunClose (lit : List Char) (cls : Char → Bool) (close : Char)
    (l : List Char) : Option (List Char) :=
  if lit.isPrefixOf l then
    match takeRun cls (l.drop lit.length) with
    | ([], _) => none
    | (r, c :: _) => if c = close then some r else none
    | (_, []) => none
  else none

/-- Match `lit` then a non-empty `cls` run, anchored at the head of `l`. -/
def matchLitRun (lit : List Char) (cls : Char → Bool)
    (l : List Char) : Option (List Char) :=
  if lit.isPrefixOf l then
    match takeRun cls (l.drop lit.length) with
    | ([], _) => none
    | (r, _) => some r
  else none

/-- A quoted non-empty `cls` run anchored at the head of `l`. -/
def matchQuotedRun (cls : Char → Bool) (l : List Char) : Option (List Char) :=
  match l with
  | '\x27' :: rest =>
    match takeRun cls rest with
    | ([], _) => none
    | (r, '\x27' :: _) => some r
    | (_, _) => none
  | _ => none

/-- Rightmost position in `l` at which `f` matches (the greedy `.*`). -/
def searchLast (f : List Char → Option (List Char)) :
    List Char → Option (List Char)
  | [] => none
  | c :: cs =>
    match searchLast f cs with
    | some r => some r
    | none => f (c :: cs)

/-- Leftmost position in `l` at which `f` matches (`re.search`). -/
def searchFirst (f : List Char → Option (List Char)) :
    List Char → Option (List Char)
  | [] => f []
  | c :: cs =>
    match f (c :: cs) with
    | some r => some r
    | none => searchFirst f cs

/-- The three regex shapes of `DEPENDENCY_PATTERNS`. -/
inductive DepPattern
  | litRunClose (lit : String) (npm : Bool)
  | litRun (lit : String)
  | litDotStarQuoted (lit : String)

/-- `re.search(pattern, s)` for the three shapes, returning the capture. -/
def runDepPattern (p : DepPattern) (s : String) : Option String :=
  match p with
  | .litRunClose lit npm =>
    (searchFirst
      (matchLitRunClose lit.toList
        (if npm then isNpmNameChar else isPyWordChar) '\x27')
      s.toList).map List.asString
  | .litRun lit =>
    (searchFirst (matchLitRun lit.toList isPyWordChar) s.toList).map
      List.asString
  | .litDotStarQuoted lit =>
    (searchFirst
      (fun l =>
        if lit.toList.isPrefixOf l then
          searchLast (matchQuotedRun isNpmNameChar)
            ((l.drop lit.toList.length).takeWhile (fun c => c ≠ '\n'))
        else none)
      s.toList).map List.asString

/-- `DEPENDENCY_PATTERNS` from `constants.py`, with each regex given as its
translated matcher.  The literals end at the capture group (the opening
quote included where the pattern has one). -/
def DEPENDENCY_PATTERNS : List (String × List (String × List DepPattern)) :=
  [("python",
    [("pip",
      [DepPattern.litRunClose "ModuleNotFoundError: No module named \x27" false,
       DepPattern.litRun "ImportError: No module named "])]),
   ("nodejs",
    [("npm",
      [DepPattern.litRunClose "Cannot find module \x27" true,
       DepPattern.litRunClose "Error: Cannot find module \x27" true,
       DepPattern.litDotStarQuoted "Error [ERR_MODULE_NOT_FOUND]"])])]

/-- Inner loop of `detect_missing_dependency`: first manager whose pattern
list has a match, in table order. -/
def firstManagerMatch (error_output : String) :
    List (String × List DepPattern) → Option (String × String)
  | [] => none
  | (manager, pats) :: rest =>
    match pats.findSome? (fun p => runDepPattern p error_output) with
    | some pkg => some (manager, pkg)
    | none => firstManagerMatch error_output rest

/-- `DependencyDetector.detect_missing_dependency` from
`dependency_detector.py`. -/
def detect_missing_dependency (error_output language : String) :
    Option (String × String) :=
  match DEPENDENCY_PATTERNS.lookup language with
  | none => none
  | some managers => firstManagerMatch error_output managers

/-- `DependencyDetector.get_install_command` from `dependency_detector.py`:
template lookup then `str.format(package=...)`. -/
def get_install_command (language package_manager package_name : String) :
    Option String :=
  match INSTALL_COMMANDS.lookup language with
  | none => none
  | some managers =>
    match managers.lookup package_manager with
    | none => none
    | some template =>
      some (template.replace "\x7bpackage\x7d" package_name)

/-! ### `app/core/docker_manager.py`

The Docker SDK calls (`container.stop()`, `container.remove()`) can raise.
A container value carries the behaviour of those underlying calls as
`Except DockerErr Unit`; the manager's wrappers are `Except`-valued, so
that an uncaught underlying exception would show up as an `Except.error`
result.  `DockerErr` distinguishes the already-terminated case
(`notFound`) from generic API errors and from any other exception, so a
wrapper that only caught one of them would be visibly partial. -/

/-- Kinds of exception an underlying Docker SDK call can raise. -/
inductive DockerErr
  | notFound (msg : String)
  | apiError (msg : String)
  | otherExc (msg : String)

/-- A container handle: its deterministic name and the behaviour of the
underlying runtime calls on it. -/
structure Container where
  name : String := ""
  stopResult : Except DockerErr Unit := Except.ok ()
  removeResult : Except DockerErr Unit := Except.ok ()

/-- `DockerManager.stop_container`: `try: container.stop(...)` returning
`True`, `except Exception` (every kind) returning `False`. -/
def stop_container (container : Container) : Except DockerErr Bool :=
  match container.stopResult with
  | Except.ok _ => Except.ok true
  | Except.error _e => Except.ok false

/-- `DockerManager.remove_container`: `try: container.remove(force=...)`
returning `True`, `except Exception` (every kind) returning `False`. -/
def remove_container (container : Container) : Except DockerErr Bool :=
  match container.removeResult with
  | Except.ok _ => Except.ok true
  | Except.error _e => Except.ok false

/-- `DockerManager.cleanup_container`: stop (result discarded), then
return the remove result.  An exception escaping either wrapper would
propagate through the `Except.error` branches. -/
def cleanup_container (container : Container) : Except DockerErr Bool :=
  match stop_container container with
  | Except.error e => Except.error e
  | Except.ok _ =>
    match remove_container container with
    | Except.error e => Except.error e
    | Except.ok b => Except.ok b

/-- The `resource_limits` dictionary built inside
`DockerManager.create_container` (lines 96-101): constants from config and
a hard-coded `network_disabled: True`. -/
structure ResourceLimits where
  mem_limit : String
  cpu_quota : Nat
  cpu_period : Nat
  network_disabled : Bool

/-- `resource_limits` as `create_container` builds it: network is always
disabled; there is no flag that could enable it. -/
def resource_limits : ResourceLimits :=
  { mem_limit := "1g"
    cpu_quota := 100000
    cpu_period := 100000
    network_disabled := true }

/-- The keyword arguments `containers.create` receives. -/
structure ContainerConfig where
  image : String
  command : List String
  name : String
  working_dir : String
  detach : Bool
  remove : Bool
  limits : ResourceLimits

/-- The formal parameters of `DockerManager.create_container`
(docker_manager.py lines 68-75).  The executor's call site passes an
`enable_network` keyword that is not among them. -/
def create_container_params : List String :=
  ["self", "execution_id", "language", "command", "working_dir", "environment"]

/-- `DockerManager.create_container`: fails closed when the language has
no image (`pull_image` returns `False`); otherwise the container is
created with the deterministic name and the hard-coded resource limits.
Registry availability during the pull is not modelled: only the
configuration the call would create matters here. -/
def create_container_config (execution_id language : String)
    (command : List String) (working_dir : String) : Option ContainerConfig :=
  match DOCKER_IMAGES.lookup language with
  | none => none
  | some image =>
    some { image := image
           command := command
           name := generate_container_name execution_id language
           working_dir := working_dir
           detach := true
           remove := false
           limits := resource_limits }

/-! ### The install-then-run shell script (`executor.py` lines 451-507)

`_prepare_install_and_run_command` composes the string

  `(IC 2>&1) && echo "" && echo "✅ Installation complete!" &&
   echo "▶▶▶ RUNNING CODE ▶▶▶" && echo "" && RC || (echo "" && echo "❌ …")`

and returns `["sh", "-c", script]`.  `Sh` is the parse of that script
(POSIX `&&`/`||` have equal precedence and associate left), with the two
non-echo commands abstracted as `Sh.cmd` carrying their output lines and
exit code; `runSh` is the evaluation. -/

/-- The running-phase sentinel line. -/
def RUNNING_SENTINEL : String := "▶▶▶ RUNNING CODE ▶▶▶"

/-- The install-failure sentinel line. -/
def INSTALL_FAILED_SENTINEL : String :=
  "❌ INSTALL FAILED — check package name and try again"

/-- Shell command forms appearing in the composed script. -/
inductive Sh
  | cmd (output : List String) (exitCode : Nat)
  | echoLine (s : String)
  | andThen (a b : Sh)
  | orElse (a b : Sh)
  | group (a : Sh)

/-- Evaluation of a shell command: the lines it writes and its exit code.
`a && b` runs `b` only when `a` exits 0; `a || b` runs `b` only when `a`
exits non-zero; `echo` writes its line and exits 0; a subshell is
transparent for this fragment. -/
def runSh : Sh → List String × Nat
  | Sh.cmd output exitCode => (output, exitCode)
  | Sh.echoLine s => ([s], 0)
  | Sh.group a => runSh a
  | Sh.andThen a b =>
    let (o1, c1) := runSh a
    if c1 = 0 then
      let (o2, c2) := runSh b
      (o1 ++ o2, c2)
    else (o1, c1)
  | Sh.orElse a b =>
    let (o1, c1) := runSh a
    if c1 = 0 then (o1, c1)
    else
      let (o2, c2) := runSh b
      (o1 ++ o2, c2)

/-- The parse of the `full_script` string composed at executor.py lines
497-505, with `install` standing for `{install_cmd} 2>&1` and `runPhase`
for `{run_cmd}`. -/
def full_script_ast (install runPhase : Sh) : Sh :=
  Sh.orElse
    (Sh.andThen
      (Sh.andThen
        (Sh.andThen
          (Sh.andThen
            (Sh.andThen (Sh.group install) (Sh.echoLine ""))
            (Sh.echoLine "✅ Installation complete!"))
          (Sh.echoLine RUNNING_SENTINEL))
        (Sh.echoLine ""))
      runPhase)
    (Sh.group (Sh.andThen (Sh.echoLine "") (Sh.echoLine INSTALL_FAILED_SENTINEL)))

/-- The `full_script` string itself, as `_prepare_install_and_run_command`
composes it for a supported language (`python` or `nodejs`); `none` is the
fallback branch for other languages.  `filename` is the basename of the
main source file and `has_stdin` adds the input redirect. -/
def prepare_install_and_run_script (language filename : String)
    (packages : List String) (has_stdin : Bool) : Option String :=
  let pkgs_str := pyJoin " " packages
  let cmds : Option (String × String) :=
    if language = "python" then
      some ("pip install --no-cache-dir " ++ pkgs_str,
            "python -u /workspace/" ++ filename)
    else if language = "nodejs" then
      some ("cd /workspace && npm install " ++ pkgs_str,
            "node /workspace/" ++ filename)
    else none
  match cmds with
  | none => none
  | some (installCmd, runCommandBase) =>
    let runCommand :=
      if has_stdin then runCommandBase ++ " < /workspace/input.txt"
      else runCommandBase
    some ("(" ++ installCmd ++ " 2>&1) && " ++
          "echo \"\" && " ++
          "echo \"✅ Installation complete!\" && " ++
          "echo \"" ++ RUNNING_SENTINEL ++ "\" && " ++
          "echo \"\" && " ++
          runCommand ++ " || " ++
          "(echo \"\" && echo \"" ++ INSTALL_FAILED_SENTINEL ++ "\")")

/-! ### `app/core/executor.py` — the event stream

`execute_code_stream` is an async generator.  Its effectful steps —
container creation, file copy, container start, the log stream, the
deadline, and `wait_container` — are the only sources of nondeterminism;
an `Env` records their outcomes for one run, and the embedding maps a
`Submission` and an `Env` to the list of events the generator yields.
Exceptions raised by a step land in the generator's
`except Exception` clause, which yields a single
`error("Execution error: …")` event. -/

/-- The event `type` field (the closed set of the wire contract). -/
inductive EventType
  | status
  | stdout
  | install_start
  | install_complete
  | install_error
  | dependency
  | html_preview
  | error
  | complete
deriving DecidableEq, Repr

/-- One emitted event.  The optional fields are present on
`install_start` (packages) and `dependency` events; the wall-clock
`timestamp` field is omitted. -/
structure Event where
  type : EventType
  content : String
  packages : Option (List String) := none
  package_manager : Option String := none
  package_name : Option String := none
  install_command : Option String := none
deriving DecidableEq, Repr

/-- The request as the executor receives it (`execute_code_stream`'s
parameters).  `stdin = some ""` and `stdin = none` are both falsy in
Python and are treated identically. -/
structure Submission where
  language : String
  code : String
  stdin : Option String := none
  files : Option (List (String × String)) := none
  install_packages : Option (List String) := none
deriving DecidableEq, Repr

/-- Outcomes of the effectful steps of one run of the generator.  The
`…Raises` fields inject an exception at the corresponding call (caught by
the generator's `except Exception`); `exnMsg` is its `str(e)`. -/
structure Env where
  prepRaises : Bool := false
  createRaises : Bool := false
  createOk : Bool := true
  copyRaises : Bool := false
  startRaises : Bool := false
  startOk : Bool := true
  lines : List String := []
  timedOut : Bool := false
  waitRaises : Bool := false
  exitCode : Int := 0
  exnMsg : String := ""
deriving DecidableEq, Repr

/-- `needs_install = bool(install_packages and language in
INSTALL_COMMANDS_MAP)` (executor.py line 66). -/
def needs_install (sub : Submission) : Bool :=
  match sub.install_packages with
  | none => false
  | some ps => !ps.isEmpty && (INSTALL_COMMANDS_MAP.lookup sub.language).isSome

/-- `timeout = settings.MAX_EXECUTION_TIME * (2 if needs_install else 1)`
(executor.py line 190): the output-drain deadline. -/
def drain_deadline (needsInstall : Bool) : Nat :=
  MAX_EXECUTION_TIME * (if needsInstall then 2 else 1)

/-- Per-line event classification in the drain loop (executor.py lines
196-201): the running sentinel marks `install_complete`, the substring
`❌ INSTALL FAILED` marks `install_error`, anything else is `stdout` —
and both sentinel checks apply only on the install path. -/
def classify_line (needsInstall : Bool) (line : String) : EventType :=
  if needsInstall && pyIn "▶▶▶ RUNNING CODE ▶▶▶" line then
    EventType.install_complete
  else if needsInstall && pyIn "❌ INSTALL FAILED" line then
    EventType.install_error
  else EventType.stdout

/-- The exit code the generator works with (executor.py lines 216-227):
`-1` on timeout, `-1` when `wait_container` raises, else the
`StatusCode`. -/
def exit_code_of (env : Env) : Int :=
  if env.timedOut then -1
  else if env.waitRaises then -1
  else env.exitCode

/-- The final `complete` event (executor.py lines 251-269). -/
def completion_event (exitCode : Int) (timedOut : Bool) : Event :=
  if exitCode = 0 then
    { type := EventType.complete, content := "Execution completed successfully" }
  else if timedOut then
    { type := EventType.complete, content := "Execution timed out" }
  else
    { type := EventType.complete,
      content := "Execution failed with exit code " ++ toString exitCode }

/-- The `dependency` event block (executor.py lines 229-249), emitted when
the detector finds a missing package in the accumulated output. -/
def dependency_events (output language : String) : List Event :=
  match detect_missing_dependency output language with
  | none => []
  | some (package_manager, package_name) =>
    [{ type := EventType.dependency
       content := "Missing dependency detected: " ++ package_name
       package_manager := some package_manager
       package_name := some package_name
       install_command := get_install_command language package_manager package_name }]

/-- The single event yielded by the generator's `except Exception` clause
(executor.py lines 271-277). -/
def internal_error_event (msg : String) : Event :=
  { type := EventType.error, content := "Execution error: " ++ msg }

/-- The status event emitted after the container starts (executor.py
lines 174-185). -/
def pre_drain_status (needsInstall : Bool) : Event :=
  if needsInstall then
    { type := EventType.status, content := "Installing packages..." }
  else
    { type := EventType.status, content := "Running..." }

/-- The `error` event of the deadline branch (executor.py lines 208-214). -/
def timeout_error_event (needsInstall : Bool) : Event :=
  { type := EventType.error
    content := "Execution timed out after " ++
      toString (drain_deadline needsInstall) ++ " seconds" }

/-- Events of the drain-and-classify phase (executor.py lines 174-269):
the pre-drain status, one event per streamed line, the timeout `error` if
the deadline was hit, the optional `dependency` event, and the final
`complete`. -/
def run_phase_events (sub : Submission) (env : Env) (needsInstall : Bool) :
    List Event :=
  [pre_drain_status needsInstall]
  ++ env.lines.map (fun l => { type := classify_line needsInstall l, content := l })
  ++ (if env.timedOut then [timeout_error_event needsInstall] else [])
  ++ (if exit_code_of env ≠ 0 ∧ env.timedOut = false ∧ needsInstall = false then
       dependency_events (String.join env.lines) sub.language
      else [])
  ++ [completion_event (exit_code_of env) env.timedOut]

/-- Events of the generator's `try` block (executor.py lines 102-277):
each failure point either raises (caught as an internal error), or takes
the explicit failure branch yielding its `error` event and returning. -/
def try_block_events (sub : Submission) (env : Env) (needsInstall : Bool) :
    List Event :=
  if env.prepRaises then [internal_error_event env.exnMsg]
  else if env.createRaises then [internal_error_event env.exnMsg]
  else if !env.createOk then
    [{ type := EventType.error
       content := "Failed to create Docker container. Is Docker running?" }]
  else if env.copyRaises then [internal_error_event env.exnMsg]
  else if env.startRaises then [internal_error_event env.exnMsg]
  else if !env.startOk then
    [{ type := EventType.error, content := "Failed to start container" }]
  else run_phase_events sub env needsInstall

/-- `_handle_html_preview` (executor.py lines 301-321). -/
def html_preview_events (code : String) : List Event :=
  [{ type := EventType.status, content := "Rendering HTML preview..." },
   { type := EventType.html_preview, content := code },
   { type := EventType.complete, content := "HTML rendered successfully" }]

/-- The first event after successful validation (executor.py lines
82-96): `install_start` with the package list on the install path, a
plain status otherwise. -/
def initial_event (sub : Submission) (needsInstall : Bool) : Event :=
  if needsInstall then
    { type := EventType.install_start
      content := "📦 Installing: " ++
        pyJoin ", " (sub.install_packages.getD []) ++ "..."
      packages := sub.install_packages }
  else
    { type := EventType.status, content := "Starting execution..." }

/-- `execute_code_stream` (executor.py lines 45-299): the full event
stream of one submission under the step outcomes `env`. -/
def execute_code_stream (sub : Submission) (env : Env) : List Event :=
  if NO_DOCKER_LANGUAGES.contains sub.language then
    html_preview_events sub.code
  else
    let needsInstall := needs_install sub
    match validate_code sub.code sub.language with
    | (false, msg) => [{ type := EventType.error, content := msg.getD "" }]
    | (true, _) =>
      initial_event sub needsInstall :: try_block_events sub env needsInstall

/-- `CodeExecutor.stop_execution` (executor.py lines 366-374) over the
active-execution registry, modelled as the map `execution_id ↦ container`
of the `active_executions` dict.  The cleanup call's `Except` is threaded
so that an exception escaping `cleanup_container` would propagate. -/
def stop_execution (registry : String → Option Container)
    (execution_id : String) :
    Except DockerErr (Bool × (String → Option Container)) :=
  match registry execution_id with
  | none => Except.ok (false, registry)
  | some container =>
    match cleanup_container container with
    | Except.error e => Except.error e
    | Except.ok _ =>
      Except.ok (true, fun k => if k = execution_id then none else registry k)

/-! ### `app/api/websocket.py` — the `/ws/execute` endpoint -/

/-- The fields a request frame may carry (`data.get(...)` results). -/
structure WsRequest where
  language : Option String := none
  code : Option String := none
  stdin : Option String := none
  files : Option (List (String × String)) := none
  install_packages : Option (List String) := none
deriving DecidableEq, Repr

/-- The submission `/ws/execute` hands to `execute_code_stream`
(websocket.py lines 40-65): only `language`, `code`, `stdin` (default
`""`) and `files` (default `[]`) are extracted from the frame;
`install_packages` is left at the executor's default `None`.  `none` is
the early-return branch for a missing/empty `language` or `code`. -/
def websocket_execute_submission (d : WsRequest) : Option Submission :=
  match d.language, d.code with
  | some language, some code =>
    if language.isEmpty || code.isEmpty then none
    else
      some { language := language
             code := code
             stdin := some (d.stdin.getD "")
             files := some (d.files.getD [])
             install_packages := none }
  | _, _ => none

/-! ### Event counting -/

/-- Number of events of type `t` in a stream. -/
def countType (t : EventType) (evs : List Event) : Nat :=
  (evs.filter (fun e => e.type = t)).length

theorem countType_nil (t : EventType) : countType t [] = 0 := rfl

theorem countType_cons (t : EventType) (e : Event) (evs : List Event) :
    countType t (e :: evs) =
      (if e.type = t then 1 else 0) + countType t evs := by
  simp only [countType, List.filter_cons]
  by_cases h : e.type = t
  · simp [h, Nat.add_comm]
  · simp [h]

theorem countType_append (t : EventType) (a b : List Event) :
    countType t (a ++ b) = countType t a + countType t b := by
  simp [countType, List.filter_append]

/-- The drain-loop classifier only produces the three line event types. -/
theorem classify_line_cases (needsInstall : Bool) (l : String) :
    classify_line needsInstall l = EventType.install_complete ∨
    classify_line needsInstall l = EventType.install_error ∨
    classify_line needsInstall l = EventType.stdout := by
  unfold classify_line
  split
  · exact Or.inl rfl
  · split
    · exact Or.inr (Or.inl rfl)
    · exact Or.inr (Or.inr rfl)

/-- Streamed line events contribute nothing to the counts of terminal,
dependency or install-start events. -/
theorem countType_line_events (t : EventType) (needsInstall : Bool)
    (lines : List String)
    (ht : t = EventType.complete ∨ t = EventType.error ∨
          t = EventType.dependency ∨ t = EventType.install_start) :
    countType t
      (lines.map fun l => { type := classify_line needsInstall l, content := l }) = 0 := by
  induction lines with
  | nil => rfl
  | cons l rest ih =>
    simp only [List.map_cons, countType_cons, ih, Nat.add_zero]
    have hc := classify_line_cases needsInstall l
    rcases ht with h | h | h | h <;> subst h <;>
      rcases hc with h' | h' | h' <;> simp [h']

/-- A dependency block holds only `dependency`-typed events. -/
theorem countType_dependency_events (t : EventType) (output language : String)
    (ht : t ≠ EventType.dependency) :
    countType t (dependency_events output language) = 0 := by
  unfold dependency_events
  cases detect_missing_dependency output language with
  | none => rfl
  | some p =>
    cases p with
    | mk manager pkg =>
      simp [countType_cons, countType_nil, ht, Ne.symm ht]

/-- The completion event always has type `complete`. -/
theorem completion_event_type (exitCode : Int) (timedOut : Bool) :
    (completion_event exitCode timedOut).type = EventType.complete := by
  unfold completion_event
  split
  · rfl
  · split <;> rfl

theorem pre_drain_status_type (needsInstall : Bool) :
    (pre_drain_status needsInstall).type = EventType.status := by
  unfold pre_drain_status
  split <;> rfl

/-- Terminal-event counts of the drain phase: exactly one `complete`, and
an `error` exactly when the deadline was hit. -/
theorem run_phase_terminal_counts (sub : Submission) (env : Env) (n : Bool) :
    countType EventType.complete (run_phase_events sub env n) = 1 ∧
    countType EventType.error (run_phase_events sub env n) =
      (if env.timedOut then 1 else 0) := by
  unfold run_phase_events
  simp only [countType_append, countType_cons, countType_nil,
    pre_drain_status_type, completion_event_type]
  constructor
  · rw [countType_line_events EventType.complete n env.lines (Or.inl rfl)]
    have hto : countType EventType.complete
        (if env.timedOut then [timeout_error_event n] else []) = 0 := by
      split
      · simp [countType_cons, countType_nil, timeout_error_event]
      · rfl
    have hdep : countType EventType.complete
        (if exit_code_of env ≠ 0 ∧ env.timedOut = false ∧ n = false then
          dependency_events (String.join env.lines) sub.language
         else []) = 0 := by
      split
      · exact countType_dependency_events _ _ _ (by intro h; cases h)
      · rfl
    simp [hto, hdep]
  · rw [countType_line_events EventType.error n env.lines (Or.inr (Or.inl rfl))]
    have hto : countType EventType.error
        (if env.timedOut then [timeout_error_event n] else []) =
        (if env.timedOut then 1 else 0) := by
      split
      · simp [countType_cons, countType_nil, timeout_error_event]
      · rfl
    have hdep : countType EventType.error
        (if exit_code_of env ≠ 0 ∧ env.timedOut = false ∧ n = false then
          dependency_events (String.join env.lines) sub.language
         else []) = 0 := by
      split
      · exact countType_dependency_events _ _ _ (by intro h; cases h)
      · rfl
    simp [hto, hdep]

/-- The drain phase ends with its `complete` event. -/
theorem run_phase_getLast (sub : Submission) (env : Env) (n : Bool) :
    (run_phase_events sub env n).getLast? =
      some (completion_event (exit_code_of env) env.timedOut) := by
  unfold run_phase_events
  rw [List.getLast?_append_of_ne_nil]
  · rfl
  · simp

/-- The try block either reaches the drain phase or stops at a single
`error` event (create failure, start failure, or a caught exception). -/
theorem try_block_cases (sub : Submission) (env : Env) (n : Bool) :
    try_block_events sub env n = run_phase_events sub env n ∨
    ∃ e, try_block_events sub env n = [e] ∧ e.type = EventType.error := by
  unfold try_block_events
  split
  · exact Or.inr ⟨_, rfl, rfl⟩
  split
  · exact Or.inr ⟨_, rfl, rfl⟩
  split
  · exact Or.inr ⟨_, rfl, rfl⟩
  split
  · exact Or.inr ⟨_, rfl, rfl⟩
  split
  · exact Or.inr ⟨_, rfl, rfl⟩
  split
  · exact Or.inr ⟨_, rfl, rfl⟩
  exact Or.inl rfl

/-- The initial event is never terminal. -/
theorem initial_event_type (sub : Submission) (n : Bool) :
    (initial_event sub n).type = EventType.install_start ∨
    (initial_event sub n).type = EventType.status := by
  unfold initial_event
  split
  · exact Or.inl rfl
  · exact Or.inr rfl

/-! ### Claim C1 — terminal events

The claim says every stream ends with exactly one `complete` OR one
`error` and never emits both.  The timeout path of the code (executor.py
lines 208-214 and 258-263) emits an `error` (the timeout message) AND a
`complete("Execution timed out")`, so the claim as stated is false; in
every other path exactly one of the two is emitted, and the stream always
ends with a terminal event. -/

/-- C1 counterexample: a python run whose drain hits the deadline emits
both one `error` and one `complete` event, refuting "never emits both". -/
theorem c1_counterexample :
    countType EventType.error
      (execute_code_stream { language := "python", code := "print(1)" }
        { timedOut := true }) = 1 ∧
    countType EventType.complete
      (execute_code_stream { language := "python", code := "print(1)" }
        { timedOut := true }) = 1 := by
  constructor <;> rfl

/-- C1 (amended): every stream of `execute_code_stream` contains exactly
one `complete` and no `error` and ends with the `complete`, or exactly
one `error` and no `complete` and ends with the `error`, or — only when
the drain deadline was hit — exactly one `error` and exactly one
`complete`, and the stream then ends with the timeout `error` event
(content `Execution timed out after <deadline> seconds`) immediately
followed by the final `complete("Execution timed out")`. -/
theorem c1_exactly_one_terminal_except_timeout (sub : Submission) (env : Env) :
    (countType EventType.complete (execute_code_stream sub env) = 1 ∧
     countType EventType.error (execute_code_stream sub env) = 0 ∧
     (execute_code_stream sub env).getLast?.map (fun e => e.type) =
       some EventType.complete) ∨
    (countType EventType.complete (execute_code_stream sub env) = 0 ∧
     countType EventType.error (execute_code_stream sub env) = 1 ∧
     (execute_code_stream sub env).getLast?.map (fun e => e.type) =
       some EventType.error) ∨
    (env.timedOut = true ∧
     countType EventType.complete (execute_code_stream sub env) = 1 ∧
     countType EventType.error (execute_code_stream sub env) = 1 ∧
     ∃ pre,
       execute_code_stream sub env =
         pre ++
           [{ type := EventType.error
              content := "Execution timed out after " ++
                toString (drain_deadline (needs_install sub)) ++ " seconds" },
            { type := EventType.complete, content := "Execution timed out" }]) := by
  by_cases hhtml : NO_DOCKER_LANGUAGES.contains sub.language
  · left
    have hs : execute_code_stream sub env = html_preview_events sub.code := by
      unfold execute_code_stream
      rw [if_pos hhtml]
    rw [hs]
    refine ⟨?_, ?_, rfl⟩ <;>
      simp [html_preview_events, countType_cons, countType_nil]
  · rcases hv : validate_code sub.code sub.language with ⟨b, msg⟩
    cases b
    · right
      left
      have hs : execute_code_stream sub env =
          [{ type := EventType.error, content := msg.getD "" }] := by
        unfold execute_code_stream
        rw [if_neg hhtml, hv]
      rw [hs]
      exact ⟨rfl, rfl, rfl⟩
    · have hstream : execute_code_stream sub env =
          initial_event sub (needs_install sub) ::
            try_block_events sub env (needs_install sub) := by
        unfold execute_code_stream
        rw [if_neg hhtml, hv]
      rcases try_block_cases sub env (needs_install sub) with htb | ⟨e, he, het⟩
      · have hcnt := run_phase_terminal_counts sub env (needs_install sub)
        have hlast := run_phase_getLast sub env (needs_install sub)
        have hin := initial_event_type sub (needs_install sub)
        have hic : countType EventType.complete (execute_code_stream sub env) =
            1 := by
          rw [hstream, htb, countType_cons, hcnt.1]
          rcases hin with h' | h' <;> simp [h']
        have hie : countType EventType.error (execute_code_stream sub env) =
            (if env.timedOut then 1 else 0) := by
          rw [hstream, htb, countType_cons, hcnt.2]
          rcases hin with h' | h' <;> simp [h']
        have hne : run_phase_events sub env (needs_install sub) ≠ [] := by
          intro hnil
          rw [hnil] at hlast
          cases hlast
        by_cases hto : env.timedOut = true
        · right
          right
          refine ⟨hto, hic, by rw [hie, if_pos hto], ?_⟩
          refine ⟨initial_event sub (needs_install sub) ::
            pre_drain_status (needs_install sub) ::
            env.lines.map (fun l =>
              { type := classify_line (needs_install sub) l, content := l }), ?_⟩
          rw [hstream, htb]
          unfold run_phase_events
          have hdep0 : ¬(exit_code_of env ≠ 0 ∧ env.timedOut = false ∧
              needs_install sub = false) := by
            intro hx
            rw [hto] at hx
            exact absurd hx.2.1 (by simp)
          have hce : completion_event (exit_code_of env) env.timedOut =
              { type := EventType.complete, content := "Execution timed out" } := by
            unfold completion_event exit_code_of
            rw [hto]
            rfl
          rw [if_pos hto, if_neg hdep0, hce]
          simp [timeout_error_event]
        · left
          have hgl : (execute_code_stream sub env).getLast?.map
              (fun e => e.type) = some EventType.complete := by
            rw [hstream, htb]
            have hcl : (initial_event sub (needs_install sub) ::
                run_phase_events sub env (needs_install sub)).getLast? =
                (run_phase_events sub env (needs_install sub)).getLast? := by
              have h5 := List.getLast?_append_of_ne_nil
                [initial_event sub (needs_install sub)] hne
              simpa using h5
            rw [hcl, hlast]
            simp [completion_event_type]
          refine ⟨hic, ?_, hgl⟩
          rw [hie, if_neg hto]
      · right
        left
        rw [hstream, he]
        have hin := initial_event_type sub (needs_install sub)
        refine ⟨?_, ?_, ?_⟩
        · rw [countType_cons, countType_cons, countType_nil]
          rcases hin with h' | h' <;> simp [h', het]
        · rw [countType_cons, countType_cons, countType_nil]
          rcases hin with h' | h' <;> simp [h', het]
        · simp [List.getLast?, het]

/-! ### Claim C4 — drain deadline

The claim says the deadline is `MAX_EXECUTION_TIME × 3` on the install
path; executor.py line 190 computes
`settings.MAX_EXECUTION_TIME * (2 if needs_install else 1)`. -/

/-- C4 counterexample: on the install path the deadline is 120 seconds,
not the `MAX_EXECUTION_TIME × 3 = 180` the claim states. -/
theorem c4_counterexample :
    drain_deadline true = 120 ∧ MAX_EXECUTION_TIME * 3 = 180 ∧
    drain_deadline true ≠ MAX_EXECUTION_TIME * 3 := by
  refine ⟨rfl, rfl, ?_⟩
  decide

/-- C4 (amended): the output-drain deadline equals `MAX_EXECUTION_TIME`
when no install path is used and `MAX_EXECUTION_TIME × 2` when the
install path is used. -/
theorem c4_drain_deadline :
    drain_deadline false = MAX_EXECUTION_TIME ∧
    drain_deadline true = MAX_EXECUTION_TIME * 2 := by
  constructor <;> rfl

/-! ### Claim C6 — java validation

The claim says validation requires only the token `class`; helpers.py
line 90 tests `"public class" not in code`. -/

/-- C6 counterexample: `class Foo` is non-empty, far below the size
limit, and contains the token `class`, yet `validate_code` rejects it. -/
theorem c6_counterexample :
    pyIn "class" "class Foo" = true ∧
    ("class Foo".toList.all (fun c => c.isWhitespace)) = false ∧
    "class Foo".length ≤ 1000000 ∧
    (validate_code "class Foo" "java").1 = false := by
  refine ⟨rfl, rfl, by decide, rfl⟩

/-- C6 (amended): for java, validation of a non-empty, ≤ 1 MB code
requires exactly the substring `public class`: code containing it passes
and code without it fails. -/
theorem c6_java_requires_public_class (code : String)
    (h1 : (code.toList.all (fun c => c.isWhitespace)) = false)
    (h2 : code.length ≤ 1000000) :
    (validate_code code "java").1 = true ↔ pyIn "public class" code = true := by
  unfold validate_code
  rw [h1]
  simp only [Bool.false_eq_true, if_false]
  rw [if_neg (by omega)]
  by_cases hp : pyIn "public class" code = true
  · simp [hp]
  · simp [hp]

/-- C6 witness: `public class Main` satisfies the hypotheses and passes. -/
theorem c6_java_requires_public_class_witness :
    (("public class Main".toList.all (fun c => c.isWhitespace)) = false ∧
     "public class Main".length ≤ 1000000) ∧
    ((validate_code "public class Main" "java").1 = true ↔
      pyIn "public class" "public class Main" = true) :=
  ⟨⟨rfl, by decide⟩,
   c6_java_requires_public_class "public class Main" rfl (by decide)⟩

/-! ### Claim C3 — container networking

The claim says networking is disabled unless the caller requested it
(install path) or the language is `ubuntu`.  `create_container`
(docker_manager.py lines 68-122) accepts no network parameter at all and
hard-codes `network_disabled: True`; the executor's call site
(executor.py line 139) passes an `enable_network` keyword that is not in
the function's signature, so the install-path create call raises
`TypeError` instead of enabling networking. -/

/-- C3: every container configuration the driver can create has
networking disabled — there is no install-path or `ubuntu` exception —
and `enable_network` is not a parameter of `create_container`. -/
theorem c3_network_always_disabled (execution_id language : String)
    (command : List String) (working_dir : String) :
    resource_limits.network_disabled = true ∧
    (create_container_config execution_id language command working_dir).all
      (fun cfg => cfg.limits.network_disabled) = true ∧
    "enable_network" ∉ create_container_params := by
  refine ⟨rfl, ?_, by decide⟩
  unfold create_container_config
  cases DOCKER_IMAGES.lookup language with
  | none => rfl
  | some image => rfl

/-! ### Claim C10 — total teardown

`stop_container` and `remove_container` wrap the underlying SDK call in
`try`/`except Exception` — every error kind, not only the
already-terminated (`notFound`) case — and return a boolean;
`cleanup_container` chains the two and `stop_execution` calls
`cleanup_container`, so none of them can propagate an exception. -/

/-- C10: teardown is total — for every container state (every underlying
exception included) the stop, remove and cleanup wrappers return a
boolean rather than an error, and `stop_execution` never propagates an
exception either. -/
theorem c10_teardown_total (container : Container)
    (registry : String → Option Container) (execution_id : String) :
    (∃ b, stop_container container = Except.ok b) ∧
    (∃ b, remove_container container = Except.ok b) ∧
    (∃ b, cleanup_container container = Except.ok b) ∧
    (∃ r, stop_execution registry execution_id = Except.ok r) := by
  have hstop : ∃ b, stop_container container = Except.ok b := by
    unfold stop_container
    cases container.stopResult with
    | ok u => exact ⟨true, rfl⟩
    | error e => exact ⟨false, rfl⟩
  have hrem : ∃ b, remove_container container = Except.ok b := by
    unfold remove_container
    cases container.removeResult with
    | ok u => exact ⟨true, rfl⟩
    | error e => exact ⟨false, rfl⟩
  have hclean : ∀ c : Container, ∃ b, cleanup_container c = Except.ok b := by
    intro c
    unfold cleanup_container stop_container remove_container
    cases c.stopResult with
    | ok u =>
      cases c.removeResult with
      | ok v => exact ⟨true, rfl⟩
      | error e => exact ⟨false, rfl⟩
    | error e =>
      cases c.removeResult with
      | ok v => exact ⟨true, rfl⟩
      | error e' => exact ⟨false, rfl⟩
  refine ⟨hstop, hrem, hclean container, ?_⟩
  unfold stop_execution
  cases hr : registry execution_id with
  | none => exact ⟨(false, registry), rfl⟩
  | some c =>
    rcases hclean c with ⟨b, hb⟩
    dsimp only
    rw [hb]
    exact ⟨_, rfl⟩

/-! ### Claim C9 — cancel idempotence -/

/-- Cleanup never fails with an exception (helper shared by the teardown
and cancellation proofs). -/
theorem cleanup_container_total (c : Container) :
    ∃ b, cleanup_container c = Except.ok b := by
  unfold cleanup_container stop_container remove_container
  cases c.stopResult with
  | ok u =>
    cases c.removeResult with
    | ok v => exact ⟨true, rfl⟩
    | error e => exact ⟨false, rfl⟩
  | error e =>
    cases c.removeResult with
    | ok v => exact ⟨true, rfl⟩
    | error e' => exact ⟨false, rfl⟩

/-- C9: `stop_execution` removes a present entry and returns `True`; for
an absent id — in particular on a second call for the same id — it
returns `False` and leaves the registry untouched. -/
theorem c9_stop_idempotent (registry : String → Option Container)
    (execution_id : String) :
    ((registry execution_id).isSome = true →
      ∃ registry2,
        stop_execution registry execution_id = Except.ok (true, registry2) ∧
        registry2 execution_id = none ∧
        (∀ k, k ≠ execution_id → registry2 k = registry k) ∧
        stop_execution registry2 execution_id = Except.ok (false, registry2)) ∧
    ((registry execution_id).isSome = false →
      stop_execution registry execution_id = Except.ok (false, registry)) := by
  cases hr : registry execution_id with
  | none =>
    constructor
    · intro h
      simp at h
    · intro _
      unfold stop_execution
      rw [hr]
  | some c =>
    constructor
    · intro _
      refine ⟨fun k => if k = execution_id then none else registry k, ?_, ?_, ?_, ?_⟩
      · unfold stop_execution
        rw [hr]
        dsimp only
        rcases cleanup_container_total c with ⟨b, hb⟩
        rw [hb]
      · simp
      · intro k hk
        simp [hk]
      · unfold stop_execution
        simp
    · intro h
      simp at h

/-- C9 witness registry: one container under the id `exec_abc`. -/
def demo_registry : String → Option Container :=
  fun k => if k = "exec_abc" then some { name := "cloudrun_python_exec_abc" } else none

/-- C9 witness: the theorem instantiated at `demo_registry`. -/
theorem c9_stop_idempotent_witness :
    ∃ registry2,
      stop_execution demo_registry "exec_abc" = Except.ok (true, registry2) ∧
      registry2 "exec_abc" = none ∧
      (∀ k, k ≠ "exec_abc" → registry2 k = demo_registry k) ∧
      stop_execution registry2 "exec_abc" = Except.ok (false, registry2) :=
  (c9_stop_idempotent demo_registry "exec_abc").1 rfl

/-! ### Claim C2 — install failure path

The claim says a failed install makes the script exit with the install
command's non-zero code, so the engine reports
`complete("Execution failed with exit code n")`, n ≠ 0.  The composed
script chains `(install) && … && run || (echo "" && echo <sentinel>)`:
when the install exits non-zero the `&&` chain short-circuits (the run
phase is indeed skipped and the sentinel printed), but the script's exit
status is that of the final `echo` — 0 — so the engine emits
`complete("Execution completed successfully")` instead. -/

/-- C2 counterexample: install exits 1; the script prints its output,
a blank line and the sentinel, skips the run phase — and exits 0, not 1,
so the engine's completion message is the success message. -/
theorem c2_counterexample :
    runSh (full_script_ast (Sh.cmd ["pip boom"] 1) (Sh.cmd ["ran"] 0)) =
      (["pip boom", "", INSTALL_FAILED_SENTINEL], 0) ∧
    (runSh (full_script_ast (Sh.cmd ["pip boom"] 1) (Sh.cmd ["ran"] 0))).2 ≠ 1 ∧
    (completion_event 0 false).content = "Execution completed successfully" := by
  refine ⟨rfl, ?_, rfl⟩
  decide

/-- C2 (amended): for every non-zero install exit code, the composed
script prints the install output, a blank line and the install-failure
sentinel, skips the run phase, and exits 0; the engine classifies the
sentinel line as `install_error`, and — the exit code being 0 — the final
event is `complete("Execution completed successfully")`. -/
theorem c2_install_failure (n m : Nat) (hn : n ≠ 0)
    (installOut runOut : List String) :
    runSh (full_script_ast (Sh.cmd installOut n) (Sh.cmd runOut m)) =
      (installOut ++ ["", INSTALL_FAILED_SENTINEL], 0) ∧
    classify_line true INSTALL_FAILED_SENTINEL = EventType.install_error ∧
    (completion_event 0 false).type = EventType.complete ∧
    (completion_event 0 false).content = "Execution completed successfully" := by
  refine ⟨?_, rfl, rfl, rfl⟩
  unfold full_script_ast runSh
  simp [runSh, hn]

/-- C2 witness: the amended theorem at install exit code 1. -/
theorem c2_install_failure_witness :
    (1 : Nat) ≠ 0 ∧
    (runSh (full_script_ast (Sh.cmd ["err"] 1) (Sh.cmd ["ran"] 0)) =
      (["err", "", INSTALL_FAILED_SENTINEL], 0) ∧
     classify_line true INSTALL_FAILED_SENTINEL = EventType.install_error ∧
     (completion_event 0 false).type = EventType.complete ∧
     (completion_event 0 false).content = "Execution completed successfully") :=
  ⟨by decide, c2_install_failure 1 0 (by decide) ["err"] ["ran"]⟩

/-! ### Claim C5 — install_packages over the streaming endpoint

The claim says the endpoint accepts and forwards `install_packages`.
websocket.py lines 42-45 extract only `language`, `code`, `stdin` and
`files` from the frame, and the call at lines 60-65 passes exactly those
four, so the executor's `install_packages` stays `None` and the install
path cannot be reached through `/ws/execute`. -/

/-- C5 counterexample: a python frame carrying `install_packages` is
forwarded without it, and the resulting stream opens with a plain
`status` event — not the `install_start` the claim implies. -/
theorem c5_counterexample :
    (websocket_execute_submission
      { language := some "python", code := some "import numpy",
        install_packages := some ["numpy"] }).map
      (fun sub => sub.install_packages) = some none ∧
    (websocket_execute_submission
      { language := some "python", code := some "import numpy",
        install_packages := some ["numpy"] }).map
      (fun sub => (execute_code_stream sub { }).head?.map (fun e => e.type)) =
      some (some EventType.status) := by
  constructor <;> rfl

/-- C5 (amended): whatever the request frame contains, the submission the
endpoint hands to the engine carries `install_packages = none`, the
install path is off, and no `install_start` event can appear in the
stream. -/
theorem c5_install_packages_dropped (d : WsRequest) (sub : Submission)
    (env : Env) (h : websocket_execute_submission d = some sub) :
    sub.install_packages = none ∧
    needs_install sub = false ∧
    countType EventType.install_start (execute_code_stream sub env) = 0 := by
  have hip : sub.install_packages = none := by
    unfold websocket_execute_submission at h
    rcases d with ⟨dl, dc, ds, df, dp⟩
    cases dl with
    | none => cases h
    | some l =>
      cases dc with
      | none => cases h
      | some c =>
        dsimp only at h
        by_cases he : (l.isEmpty || c.isEmpty) = true
        · rw [if_pos he] at h
          cases h
        · rw [if_neg he] at h
          cases h
          rfl
  have hni : needs_install sub = false := by
    unfold needs_install
    rw [hip]
  refine ⟨hip, hni, ?_⟩
  unfold execute_code_stream
  split
  · simp [html_preview_events, countType_cons, countType_nil]
  · rcases hv : validate_code sub.code sub.language with ⟨b, msg⟩
    cases b
    · simp [countType_cons, countType_nil]
    · simp only
      rw [countType_cons]
      have hinit : (initial_event sub (needs_install sub)).type =
          EventType.status := by
        unfold initial_event
        rw [hni]
        rfl
      rw [hinit]
      rw [if_neg (by decide)]
      rcases try_block_cases sub env (needs_install sub) with htb | ⟨e, he, het⟩
      · rw [htb]
        unfold run_phase_events
        simp only [countType_append, countType_cons, countType_nil]
        rw [countType_line_events EventType.install_start (needs_install sub)
          env.lines (Or.inr (Or.inr (Or.inr rfl)))]
        have h1 : (pre_drain_status (needs_install sub)).type =
            EventType.status := pre_drain_status_type _
        have h2 : countType EventType.install_start
            (if env.timedOut then [timeout_error_event (needs_install sub)]
             else []) = 0 := by
          split
          · simp [countType_cons, countType_nil, timeout_error_event]
          · rfl
        have h3 : countType EventType.install_start
            (if exit_code_of env ≠ 0 ∧ env.timedOut = false ∧
                needs_install sub = false then
              dependency_events (String.join env.lines) sub.language
             else []) = 0 := by
          split
          · exact countType_dependency_events _ _ _ (by intro hx; cases hx)
          · rfl
        simp [h1, h2, h3, completion_event_type]
      · rw [he]
        rw [countType_cons, countType_nil, het]
        simp

/-- C5 witness: the amended theorem at a concrete frame carrying
`install_packages`. -/
theorem c5_install_packages_dropped_witness :
    ({ language := "python", code := "print(1)", stdin := some "",
       files := some [], install_packages := none } : Submission).install_packages
        = none ∧
    needs_install
      { language := "python", code := "print(1)", stdin := some "",
        files := some [], install_packages := none } = false ∧
    countType EventType.install_start
      (execute_code_stream
        { language := "python", code := "print(1)", stdin := some "",
          files := some [], install_packages := none } { }) = 0 :=
  c5_install_packages_dropped
    { language := some "python", code := some "print(1)",
      install_packages := some ["numpy"] }
    { language := "python", code := "print(1)", stdin := some "",
      files := some [], install_packages := none }
    { } rfl

/-! ### Claim C7 — install_packages validation

The claim says every `install_packages` entry is validated against
`[A-Za-z0-9._\-@/]+` before any command is composed.  `validate_code`
takes only `(code, language)` (helpers.py line 75) — no package list —
and `_prepare_install_and_run_command` joins the raw strings with spaces
straight into the shell script (executor.py lines 466-507), so nothing is
rejected and arbitrary entries reach the script verbatim. -/

/-- Substring test as list-infix. -/
theorem pyIn_spec (needle hay : String) :
    pyIn needle hay = true ↔ needle.toList <:+: hay.toList := by
  unfold pyIn
  generalize needle.toList = n
  generalize hay.toList = l
  induction l with
  | nil =>
    unfold containsSeq
    rw [List.isPrefixOf_iff_prefix]
    constructor
    · intro h
      exact h.isInfix
    · intro h
      rcases h with ⟨s, t, hst⟩
      simp only [List.append_eq_nil] at hst
      rcases hst with ⟨⟨_, hn⟩, _⟩
      simp [hn]
  | cons c cs ih =>
    unfold containsSeq
    rw [Bool.or_eq_true, List.isPrefixOf_iff_prefix, ih, List.infix_cons_iff]

/-- A substring of `a` is a substring of `a ++ b`. -/
theorem pyIn_append_left (p a b : String) (h : pyIn p a = true) :
    pyIn p (a ++ b) = true := by
  rw [pyIn_spec] at h ⊢
  have hd : (a ++ b).toList = a.toList ++ b.toList := String.data_append a b
  rw [hd]
  rcases h with ⟨s, t, hst⟩
  exact ⟨s, t ++ b.toList, by rw [← hst]; simp⟩

/-- A substring of `b` is a substring of `a ++ b`. -/
theorem pyIn_append_right (p a b : String) (h : pyIn p b = true) :
    pyIn p (a ++ b) = true := by
  rw [pyIn_spec] at h ⊢
  have hd : (a ++ b).toList = a.toList ++ b.toList := String.data_append a b
  rw [hd]
  rcases h with ⟨s, t, hst⟩
  exact ⟨a.toList ++ s, t, by rw [← hst]; simp⟩

/-- Every string is a substring of itself. -/
theorem pyIn_self (p : String) : pyIn p p = true :=
  (pyIn_spec p p).mpr (List.infix_refl _)

/-- Every member of a joined list occurs verbatim in the join. -/
theorem pyIn_pyJoin_of_mem (sep p : String) (parts : List String)
    (hp : p ∈ parts) : pyIn p (pyJoin sep parts) = true := by
  induction parts with
  | nil => cases hp
  | cons x xs ih =>
    cases xs with
    | nil =>
      rcases List.mem_cons.mp hp with rfl | h
      · exact pyIn_self p
      · cases h
    | cons y ys =>
      rcases List.mem_cons.mp hp with rfl | h
      · show pyIn p (p ++ sep ++ pyJoin sep (y :: ys)) = true
        exact pyIn_append_left _ _ _ (pyIn_append_left _ _ _ (pyIn_self p))
      · show pyIn p (x ++ sep ++ pyJoin sep (y :: ys)) = true
        exact pyIn_append_right _ _ _ (ih h)

/-- C7 counterexample: a python submission whose `install_packages` entry
`a;b !` falls outside `[A-Za-z0-9._\-@/]+` is not rejected — the stream
opens with `install_start`, not an `error` — and the entry is
interpolated verbatim into the composed install script. -/
theorem c7_counterexample :
    (execute_code_stream
      { language := "python", code := "print(1)",
        install_packages := some ["a;b !"] } { }).head?.map (fun e => e.type) =
      some EventType.install_start ∧
    (prepare_install_and_run_script "python" "main.py" ["a;b !"] false).map
      (fun script => pyIn "a;b !" script) = some true := by
  constructor <;> rfl

/-- C7 (amended): `install_packages` entries are never validated — the
engine's only validation call sees `(code, language)` — so a python
submission with any package list that passes code validation proceeds to
the install path (`install_start` first, no rejection), and each entry
appears verbatim inside the composed install shell script. -/
theorem c7_packages_unvalidated (code : String) (pkgs : List String)
    (p : String) (env : Env) (filename : String) (has_stdin : Bool)
    (hv : (validate_code code "python").1 = true) (hp : p ∈ pkgs) :
    (execute_code_stream
      { language := "python", code := code,
        install_packages := some pkgs } env).head?.map (fun e => e.type) =
      some EventType.install_start ∧
    ∃ script,
      prepare_install_and_run_script "python" filename pkgs has_stdin =
        some script ∧
      pyIn p script = true := by
  have hpe : pkgs.isEmpty = false := by
    cases pkgs
    · cases hp
    · rfl
  have hni : needs_install
      { language := "python", code := code, install_packages := some pkgs } =
      true := by
    unfold needs_install
    dsimp only
    rw [hpe]
    rfl
  constructor
  · unfold execute_code_stream
    dsimp only
    rw [if_neg (by decide)]
    rcases hvv : validate_code code "python" with ⟨b, msg⟩
    rw [hvv] at hv
    cases b
    · cases hv
    · dsimp only
      rw [hni]
      rfl
  · have hjoin : pyIn p (pyJoin " " pkgs) = true :=
      pyIn_pyJoin_of_mem " " p pkgs hp
    have hic : pyIn p ("pip install --no-cache-dir " ++ pyJoin " " pkgs) =
        true := pyIn_append_right _ _ _ hjoin
    refine ⟨_, rfl, ?_⟩
    repeat
      first
        | exact pyIn_append_right _ _ _ hic
        | apply pyIn_append_left

/-! ### Claim C8 — dependency events -/

/-- C8: a `dependency` event appears in the stream only when the computed
exit code is non-zero, the run did not time out, and the install path was
not used; and when it appears the stream decomposes as
`pre ++ dependency :: post` with the `complete` event inside `post` — the
dependency event strictly precedes `complete`. -/
theorem c8_dependency_before_complete (sub : Submission) (env : Env)
    (h : countType EventType.dependency (execute_code_stream sub env) ≠ 0) :
    exit_code_of env ≠ 0 ∧ env.timedOut = false ∧ needs_install sub = false ∧
    ∃ pre e post,
      execute_code_stream sub env = pre ++ e :: post ∧
      e.type = EventType.dependency ∧
      countType EventType.complete post = 1 := by
  by_cases hhtml : NO_DOCKER_LANGUAGES.contains sub.language
  · exfalso
    apply h
    unfold execute_code_stream
    rw [if_pos hhtml]
    simp [html_preview_events, countType_cons, countType_nil]
  · rcases hv : validate_code sub.code sub.language with ⟨b, msg⟩
    cases b
    · exfalso
      apply h
      unfold execute_code_stream
      rw [if_neg hhtml, hv]
      simp [countType_cons, countType_nil]
    · have hstream : execute_code_stream sub env =
          initial_event sub (needs_install sub) ::
            try_block_events sub env (needs_install sub) := by
        unfold execute_code_stream
        rw [if_neg hhtml, hv]
      have hin := initial_event_type sub (needs_install sub)
      have hini0 : (if (initial_event sub (needs_install sub)).type =
          EventType.dependency then 1 else 0) = 0 := by
        rcases hin with h' | h' <;> simp [h']
      rcases try_block_cases sub env (needs_install sub) with htb | ⟨e, he, het⟩
      · rw [hstream, htb] at h
        have hmain : countType EventType.dependency
            (initial_event sub (needs_install sub) ::
              run_phase_events sub env (needs_install sub)) =
            countType EventType.dependency
              (if exit_code_of env ≠ 0 ∧ env.timedOut = false ∧
                  needs_install sub = false then
                dependency_events (String.join env.lines) sub.language
               else []) := by
          unfold run_phase_events
          rw [countType_cons]
          simp only [countType_append]
          rw [countType_line_events EventType.dependency (needs_install sub)
            env.lines (Or.inr (Or.inr (Or.inl rfl)))]
          rw [hini0]
          have h2 : countType EventType.dependency [pre_drain_status (needs_install sub)] = 0 := by
            rw [countType_cons, countType_nil]
            have := pre_drain_status_type (needs_install sub)
            simp [this]
          have h3 : countType EventType.dependency
              (if env.timedOut then [timeout_error_event (needs_install sub)]
               else []) = 0 := by
            split
            · simp [countType_cons, countType_nil, timeout_error_event]
            · rfl
          have h4 : countType EventType.dependency
              [completion_event (exit_code_of env) env.timedOut] = 0 := by
            rw [countType_cons, countType_nil]
            simp [completion_event_type]
          rw [h2, h3, h4]
          omega
        rw [hmain] at h
        by_cases hcond : exit_code_of env ≠ 0 ∧ env.timedOut = false ∧
            needs_install sub = false
        · obtain ⟨hec, hto, hnf⟩ := hcond
          rcases hdet : detect_missing_dependency (String.join env.lines)
              sub.language with _ | ⟨mgr, pkg⟩
          · exfalso
            apply h
            rw [if_pos ⟨hec, hto, hnf⟩]
            unfold dependency_events
            rw [hdet]
            rfl
          · refine ⟨hec, hto, hnf,
              initial_event sub (needs_install sub) ::
                pre_drain_status (needs_install sub) ::
                env.lines.map (fun l =>
                  { type := classify_line (needs_install sub) l, content := l }),
              { type := EventType.dependency
                content := "Missing dependency detected: " ++ pkg
                package_manager := some mgr
                package_name := some pkg
                install_command := get_install_command sub.language mgr pkg },
              [completion_event (exit_code_of env) env.timedOut],
              ?_, rfl, ?_⟩
            · rw [hstream, htb]
              unfold run_phase_events dependency_events
              have hcondp : exit_code_of env ≠ 0 ∧ env.timedOut = false ∧
                  needs_install sub = false := ⟨hec, hto, hnf⟩
              have hton : ¬ (env.timedOut = true) := by
                rw [hto]
                simp
              rw [hdet, if_neg hton, if_pos hcondp]
              simp
            · rw [countType_cons, countType_nil]
              simp [completion_event_type]
        · exfalso
          apply h
          rw [if_neg hcond]
          rfl
      · exfalso
        apply h
        rw [hstream, he, countType_cons, countType_cons, countType_nil]
        rw [hini0]
        simp [het]

/-- A run hitting a missing numpy import: the submission. -/
def numpy_missing_sub : Submission :=
  { language := "python", code := "import numpy" }

/-- A run hitting a missing numpy import: the step outcomes. -/
def numpy_missing_env : Env :=
  { lines := ["ModuleNotFoundError: No module named \x27numpy\x27"],
    exitCode := 1 }

/-- C8 witness: the theorem at a concrete failed numpy run. -/
theorem c8_dependency_before_complete_witness :
    countType EventType.dependency
      (execute_code_stream numpy_missing_sub numpy_missing_env) ≠ 0 ∧
    (exit_code_of numpy_missing_env ≠ 0 ∧
     numpy_missing_env.timedOut = false ∧
     needs_install numpy_missing_sub = false ∧
     ∃ pre e post,
       execute_code_stream numpy_missing_sub numpy_missing_env =
         pre ++ e :: post ∧
       e.type = EventType.dependency ∧
       countType EventType.complete post = 1) :=
  ⟨by decide,
   c8_dependency_before_complete numpy_missing_sub numpy_missing_env
     (by decide)⟩

/-- C7 witness: the amended theorem at a concrete submission whose
package entry `a;b !` is outside the claimed character set. -/
theorem c7_packages_unvalidated_witness :
    ((validate_code "print(1)" "python").1 = true ∧ "a;b !" ∈ ["a;b !"]) ∧
    ((execute_code_stream
        { language := "python", code := "print(1)",
          install_packages := some ["a;b !"] } { }).head?.map
        (fun e => e.type) = some EventType.install_start ∧
     ∃ script,
       prepare_install_and_run_script "python" "main.py" ["a;b !"] false =
         some script ∧
       pyIn "a;b !" script = true) :=
  ⟨⟨rfl, by decide⟩,
   c7_packages_unvalidated "print(1)" ["a;b !"] "a;b !" { } "main.py" false
     rfl (by decide)⟩
